import Mathlib

/-!
Shallow embedding of the premium-estimation logic of
`src/src/App.tsx` (the "PremiumEstimator" of the spec).
Numbers are modelled as exact rationals; JavaScript `Math.round`
is modelled as `fun q => ⌊q + 1/2⌋`.
-/

namespace PremiumEstimator

/-- The `ageRange` enum of `SavingsInput`. -/
inductive AgeRange where
  | a16_19 | a20_24 | a25_29 | a30_64 | a65_74 | a75plus
deriving DecidableEq, Repr

/-- The `vehicleType` enum of `SavingsInput`. -/
inductive VehicleType where
  | sedan | suv | truck | sports | luxury | electric
deriving DecidableEq, Repr

/-- The `coverageLevel` enum of `SavingsInput`. -/
inductive CoverageLevel where
  | minimum | standard | full
deriving DecidableEq, Repr

/-- The `drivingHistory` enum of `SavingsInput`. -/
inductive DrivingHistory where
  | clean | minor
deriving DecidableEq, Repr

/-- The `SavingsInput` record of `App.tsx`: `state` is a free string,
`currentPremium` a JS number (modelled as an exact rational). -/
structure SavingsInput where
  ageRange : AgeRange
  state : String
  vehicleType : VehicleType
  coverageLevel : CoverageLevel
  drivingHistory : DrivingHistory
  currentPremium : ℚ
deriving DecidableEq, Repr

/-- `AGE_FACTOR` table from `App.tsx`. -/
def AGE_FACTOR : AgeRange → ℚ
  | .a16_19 => 1.85
  | .a20_24 => 1.55
  | .a25_29 => 1.20
  | .a30_64 => 1.00
  | .a65_74 => 1.15
  | .a75plus => 1.35

/-- `STATE_FACTOR` record lookup from `App.tsx`: `STATE_FACTOR[s]`,
`none` when the key is absent. -/
def STATE_FACTOR_find (s : String) : Option ℚ :=
  if s = "MI" then some 1.45
  else if s = "LA" then some 1.40
  else if s = "FL" then some 1.35
  else if s = "NY" then some 1.30
  else if s = "CA" then some 1.25
  else if s = "NJ" then some 1.28
  else if s = "TX" then some 1.20
  else if s = "DEFAULT" then some 1.00
  else none

/-- `STATE_FACTOR.DEFAULT` from `App.tsx`. -/
def STATE_FACTOR_DEFAULT : ℚ := 1.00

/-- `STATE_FACTOR[values.state] || STATE_FACTOR.DEFAULT` from `App.tsx`:
a missing key yields `undefined` (falsy) and a stored `0` would also be
falsy, so both fall back to the default. -/
def stateFactorLookup (s : String) : ℚ :=
  match STATE_FACTOR_find s with
  | some v => if v = 0 then STATE_FACTOR_DEFAULT else v
  | none => STATE_FACTOR_DEFAULT

/-- `VEHICLE_FACTOR` table from `App.tsx`. -/
def VEHICLE_FACTOR : VehicleType → ℚ
  | .sedan => 1.00
  | .suv => 1.10
  | .truck => 1.08
  | .sports => 1.45
  | .luxury => 1.55
  | .electric => 1.15

/-- `COVERAGE_FACTOR` table from `App.tsx`. -/
def COVERAGE_FACTOR : CoverageLevel → ℚ
  | .minimum => 0.65
  | .standard => 1.00
  | .full => 1.45

/-- `HISTORY_FACTOR` table from `App.tsx`. -/
def HISTORY_FACTOR : DrivingHistory → ℚ
  | .clean => 0.85
  | .minor => 1.00

/-- JavaScript `Math.round`: round half toward positive infinity,
i.e. `⌊q + 1/2⌋`. -/
def jround (q : ℚ) : ℤ := ⌊q + 1/2⌋

/-- `riskAdjustment = ageFactor * stateFactor * vehicleFactor * historyFactor`
from `App.tsx`. -/
def riskAdjustment (i : SavingsInput) : ℚ :=
  AGE_FACTOR i.ageRange * stateFactorLookup i.state *
    VEHICLE_FACTOR i.vehicleType * HISTORY_FACTOR i.drivingHistory

/-- `baselineMultiplier = riskAdjustment * coverageFactor` from `App.tsx`. -/
def baselineMultiplier (i : SavingsInput) : ℚ :=
  riskAdjustment i * COVERAGE_FACTOR i.coverageLevel

/-- `savingsMultiplier = Math.max(0.70, Math.min(1.0, 1.0 / baselineMultiplier * 0.92))`
from `App.tsx`. -/
def savingsMultiplier (i : SavingsInput) : ℚ :=
  max 0.70 (min 1.0 (1.0 / baselineMultiplier i * 0.92))

/-- `estimatedNewPremium = Math.round(values.currentPremium * savingsMultiplier)`
from `App.tsx`. -/
def estimatedNewPremium (i : SavingsInput) : ℤ :=
  jround (i.currentPremium * savingsMultiplier i)

/-- `monthlySavings = Math.max(0, values.currentPremium - estimatedNewPremium)`
from `App.tsx`. -/
def monthlySavings (i : SavingsInput) : ℚ :=
  max 0 (i.currentPremium - (estimatedNewPremium i : ℚ))

/-- `annualSavings = monthlySavings * 12` from `App.tsx`. -/
def annualSavings (i : SavingsInput) : ℚ :=
  monthlySavings i * 12

/-- The breakdown record of the spec's `estimate` signature (§6):
the seven numeric outputs of the computation. -/
structure Breakdown where
  riskAdjustment : ℚ
  coverageFactor : ℚ
  baselineMultiplier : ℚ
  savingsMultiplier : ℚ
  estimatedNewPremium : ℤ
  monthlySavings : ℚ
  annualSavings : ℚ
deriving DecidableEq, Repr

/-- The full evaluation of `App.tsx` lines 32–44 on one input. -/
def estimate (i : SavingsInput) : Breakdown where
  riskAdjustment := riskAdjustment i
  coverageFactor := COVERAGE_FACTOR i.coverageLevel
  baselineMultiplier := baselineMultiplier i
  savingsMultiplier := savingsMultiplier i
  estimatedNewPremium := estimatedNewPremium i
  monthlySavings := monthlySavings i
  annualSavings := annualSavings i

/-- Reference pipeline for the fallback claim: the same computation with
the state factor supplied directly instead of looked up, following the
spec's words "state mapped to factor 1.00". -/
def estimateWithStateFactor (sf : ℚ) (i : SavingsInput) : Breakdown :=
  let risk := AGE_FACTOR i.ageRange * sf *
    VEHICLE_FACTOR i.vehicleType * HISTORY_FACTOR i.drivingHistory
  let base := risk * COVERAGE_FACTOR i.coverageLevel
  let mult := max 0.70 (min 1.0 (1.0 / base * 0.92))
  let est := jround (i.currentPremium * mult)
  let monthly := max 0 (i.currentPremium - (est : ℚ))
  { riskAdjustment := risk
    coverageFactor := COVERAGE_FACTOR i.coverageLevel
    baselineMultiplier := base
    savingsMultiplier := mult
    estimatedNewPremium := est
    monthlySavings := monthly
    annualSavings := monthly * 12 }

/-- Round half away from zero, the other convention the spec names for
`estimatedNewPremium`. -/
def roundHalfAwayFromZero (q : ℚ) : ℤ :=
  if 0 ≤ q then ⌊q + 1/2⌋ else -⌊-q + 1/2⌋

/-- Spec scenario 1: age 30-64, CA, sedan, standard coverage, clean record,
premium 180. -/
def iCA : SavingsInput :=
  { ageRange := .a30_64, state := "CA", vehicleType := .sedan,
    coverageLevel := .standard, drivingHistory := .clean, currentPremium := 180 }

/-- Spec scenario 3: age 30-64, WY (unlisted state), sedan, minimum coverage,
clean record, premium 100. -/
def iWY : SavingsInput :=
  { ageRange := .a30_64, state := "WY", vehicleType := .sedan,
    coverageLevel := .minimum, drivingHistory := .clean, currentPremium := 100 }

/-- Spec scenario 2 profile (age 16-19, MI, sports car, full coverage, minor
record) with premium 52; its savings multiplier is clamped to the 0.70 floor. -/
def iMI52 : SavingsInput :=
  { ageRange := .a16_19, state := "MI", vehicleType := .sports,
    coverageLevel := .full, drivingHistory := .minor, currentPremium := 52 }

/-- Every `AGE_FACTOR` entry is positive. -/
theorem AGE_FACTOR_pos (a : AgeRange) : 0 < AGE_FACTOR a := by
  cases a <;> norm_num [AGE_FACTOR]

/-- Every `VEHICLE_FACTOR` entry is positive. -/
theorem VEHICLE_FACTOR_pos (v : VehicleType) : 0 < VEHICLE_FACTOR v := by
  cases v <;> norm_num [VEHICLE_FACTOR]

/-- Every `COVERAGE_FACTOR` entry is positive. -/
theorem COVERAGE_FACTOR_pos (c : CoverageLevel) : 0 < COVERAGE_FACTOR c := by
  cases c <;> norm_num [COVERAGE_FACTOR]

/-- Every `HISTORY_FACTOR` entry is positive. -/
theorem HISTORY_FACTOR_pos (d : DrivingHistory) : 0 < HISTORY_FACTOR d := by
  cases d <;> norm_num [HISTORY_FACTOR]

/-- Every value stored in the `STATE_FACTOR` record is positive. -/
theorem STATE_FACTOR_find_pos (s : String) (v : ℚ) (h : STATE_FACTOR_find s = some v) :
    0 < v := by
  unfold STATE_FACTOR_find at h
  split_ifs at h <;> exact lt_of_lt_of_eq (by norm_num) (Option.some.inj h)

/-- The resolved state factor is always positive. -/
theorem stateFactorLookup_pos (s : String) : 0 < stateFactorLookup s := by
  rcases h : STATE_FACTOR_find s with _ | v
  · norm_num [stateFactorLookup, h, STATE_FACTOR_DEFAULT]
  · by_cases h0 : v = 0
    · norm_num [stateFactorLookup, h, h0, STATE_FACTOR_DEFAULT]
    · simpa [stateFactorLookup, h, h0] using STATE_FACTOR_find_pos s v h


/-- `riskAdjustment` is always positive: all four factor tables are positive. -/
theorem riskAdjustment_pos (i : SavingsInput) : 0 < riskAdjustment i :=
  mul_pos (mul_pos (mul_pos (AGE_FACTOR_pos i.ageRange) (stateFactorLookup_pos i.state))
    (VEHICLE_FACTOR_pos i.vehicleType)) (HISTORY_FACTOR_pos i.drivingHistory)

/-- `baselineMultiplier` is always positive. -/
theorem baselineMultiplier_pos (i : SavingsInput) : 0 < baselineMultiplier i :=
  mul_pos (riskAdjustment_pos i) (COVERAGE_FACTOR_pos i.coverageLevel)

/-- The clamp floor: `savingsMultiplier` is at least 0.70. -/
theorem savingsMultiplier_ge (i : SavingsInput) : (0.70 : ℚ) ≤ savingsMultiplier i :=
  le_max_left _ _

/-- The clamp cap: `savingsMultiplier` is at most 1. -/
theorem savingsMultiplier_le (i : SavingsInput) : savingsMultiplier i ≤ 1 :=
  max_le (by norm_num) (le_trans (min_le_left _ _) (by norm_num))

/-- C1: for every input — every enum value, any state string, any
currentPremium — the computed `savingsMultiplier` lies in the closed
interval [0.70, 1.00]. -/
theorem savingsMultiplier_mem_Icc (i : SavingsInput) :
    (0.70 : ℚ) ≤ (estimate i).savingsMultiplier ∧ (estimate i).savingsMultiplier ≤ 1.00 := by
  refine ⟨savingsMultiplier_ge i, ?_⟩
  have := savingsMultiplier_le i
  norm_num [estimate] at this ⊢
  exact this

/-- C6: for every input, `annualSavings` is exactly `monthlySavings * 12`. -/
theorem annualSavings_eq_twelve_monthly (i : SavingsInput) :
    (estimate i).annualSavings = (estimate i).monthlySavings * 12 := rfl

/-- C7: spec scenario 1 (age 30-64, CA, sedan, standard, clean, premium 180):
all five factors, the intermediate multipliers (the savings multiplier being
the unclamped 0.92/1.0625), and the three money outputs are as stated. -/
theorem scenario1_breakdown :
    AGE_FACTOR iCA.ageRange = 1.00 ∧
    stateFactorLookup iCA.state = 1.25 ∧
    VEHICLE_FACTOR iCA.vehicleType = 1.00 ∧
    HISTORY_FACTOR iCA.drivingHistory = 0.85 ∧
    (estimate iCA).riskAdjustment = 1.0625 ∧
    (estimate iCA).coverageFactor = 1.00 ∧
    (estimate iCA).baselineMultiplier = 1.0625 ∧
    (estimate iCA).savingsMultiplier = 0.92 / 1.0625 ∧
    (estimate iCA).savingsMultiplier = 1.0 / (estimate iCA).baselineMultiplier * 0.92 ∧
    (estimate iCA).estimatedNewPremium = 156 ∧
    (estimate iCA).monthlySavings = 24 ∧
    (estimate iCA).annualSavings = 288 := by
  norm_num +decide [estimate, estimatedNewPremium, jround, savingsMultiplier,
    baselineMultiplier, riskAdjustment, monthlySavings, annualSavings,
    stateFactorLookup, STATE_FACTOR_find, STATE_FACTOR_DEFAULT, AGE_FACTOR,
    VEHICLE_FACTOR, COVERAGE_FACTOR, HISTORY_FACTOR, iCA, Int.floor_eq_iff]

/-- C2: with an integer non-negative `currentPremium`, `monthlySavings` is
non-negative and `estimatedNewPremium` never exceeds `currentPremium`. -/
theorem savings_nonneg_premium_le (i : SavingsInput) (n : ℕ) (h : i.currentPremium = n) :
    0 ≤ (estimate i).monthlySavings ∧
      ((estimate i).estimatedNewPremium : ℚ) ≤ i.currentPremium := by
  constructor
  · exact le_max_left _ _
  · have hmul : i.currentPremium * savingsMultiplier i ≤ (n : ℚ) := by
      rw [h]
      calc (n : ℚ) * savingsMultiplier i ≤ (n : ℚ) * 1 :=
            mul_le_mul_of_nonneg_left (savingsMultiplier_le i) (by positivity)
        _ = (n : ℚ) := mul_one _
    have hfloor : estimatedNewPremium i ≤ (n : ℤ) := by
      unfold estimatedNewPremium jround
      have hle : ⌊i.currentPremium * savingsMultiplier i + 1/2⌋ ≤ ⌊(n : ℚ) + 1/2⌋ :=
        Int.floor_mono (add_le_add_right hmul _)
      have hn : ⌊(n : ℚ) + 1/2⌋ = (n : ℤ) := by
        rw [Int.floor_eq_iff]
        constructor <;> push_cast <;> linarith
      omega
    rw [h]
    exact_mod_cast hfloor

/-- C2 witness: at spec scenario 1 (premium 180) the savings are non-negative
and the new premium does not exceed 180. -/
theorem savings_nonneg_premium_le_witness :
    0 ≤ (estimate iCA).monthlySavings ∧
      ((estimate iCA).estimatedNewPremium : ℚ) ≤ iCA.currentPremium :=
  savings_nonneg_premium_le iCA 180 (by norm_num [iCA])

/-- C5: when the state string is absent from the `STATE_FACTOR` record, the
whole breakdown — all seven outputs — coincides with the same input computed
with a state factor of 1.00. -/
theorem state_fallback (i : SavingsInput) (h : STATE_FACTOR_find i.state = none) :
    estimate i = estimateWithStateFactor 1.00 i := by
  have hs : stateFactorLookup i.state = 1.00 := by
    simp [stateFactorLookup, h, STATE_FACTOR_DEFAULT]
  rw [show estimate i = estimateWithStateFactor (stateFactorLookup i.state) i from rfl, hs]

/-- C5 witness: "WY" is not a key of the `STATE_FACTOR` record, and the
breakdown for spec scenario 3 coincides with the one computed with state
factor 1.00. -/
theorem state_fallback_witness :
    STATE_FACTOR_find iWY.state = none ∧
      estimate iWY = estimateWithStateFactor 1.00 iWY :=
  ⟨by norm_num +decide [STATE_FACTOR_find, iWY],
    state_fallback iWY (by norm_num +decide [STATE_FACTOR_find, iWY])⟩

/-- C9: when `currentPremium` is 0 (the value the UI substitutes for
non-numeric entry), the estimated new premium and both savings figures
are all 0. -/
theorem zero_premium_zero_savings (i : SavingsInput) (h : i.currentPremium = 0) :
    (estimate i).estimatedNewPremium = 0 ∧
      (estimate i).monthlySavings = 0 ∧ (estimate i).annualSavings = 0 := by
  have hest : estimatedNewPremium i = 0 := by
    unfold estimatedNewPremium jround
    rw [h, zero_mul, zero_add]
    norm_num [Int.floor_eq_iff]
  refine ⟨hest, ?_, ?_⟩ <;>
    norm_num [estimate, monthlySavings, annualSavings, hest, h]

/-- C9 witness: scenario 1 profile with the premium field zeroed out yields
zero new premium and zero savings. -/
theorem zero_premium_zero_savings_witness :
    (estimate { iCA with currentPremium := 0 }).estimatedNewPremium = 0 ∧
      (estimate { iCA with currentPremium := 0 }).monthlySavings = 0 ∧
      (estimate { iCA with currentPremium := 0 }).annualSavings = 0 :=
  zero_premium_zero_savings { iCA with currentPremium := 0 } (by norm_num [iCA])

/-- C10: the rounding of `estimatedNewPremium` is JavaScript `Math.round`,
i.e. `⌊q + 1/2⌋` (round half toward positive infinity), and on every input
with non-negative `currentPremium` it coincides with rounding half away
from zero. -/
theorem rounding_convention (i : SavingsInput) (hP : 0 ≤ i.currentPremium) :
    (estimate i).estimatedNewPremium =
        ⌊i.currentPremium * (estimate i).savingsMultiplier + 1/2⌋ ∧
      (estimate i).estimatedNewPremium =
        roundHalfAwayFromZero (i.currentPremium * (estimate i).savingsMultiplier) := by
  have hx : 0 ≤ i.currentPremium * (estimate i).savingsMultiplier :=
    mul_nonneg hP (le_trans (by norm_num) (savingsMultiplier_ge i))
  constructor
  · rfl
  · rw [roundHalfAwayFromZero, if_pos hx]
    rfl

/-- C10 witness: at spec scenario 1 the premium is non-negative and both
rounding characterisations hold. -/
theorem rounding_convention_witness :
    (estimate iCA).estimatedNewPremium =
        ⌊iCA.currentPremium * (estimate iCA).savingsMultiplier + 1/2⌋ ∧
      (estimate iCA).estimatedNewPremium =
        roundHalfAwayFromZero (iCA.currentPremium * (estimate iCA).savingsMultiplier) :=
  rounding_convention iCA (by norm_num [iCA])

/-- C3 counterexample: at spec scenario 1 held fixed except for the coverage
level, moving standard → full (a larger coverage factor) strictly DECREASES
`estimatedNewPremium` (126 < 156), so increasing the coverage factor does
not "never decrease" it. -/
theorem coverage_monotone_cex :
    COVERAGE_FACTOR CoverageLevel.standard < COVERAGE_FACTOR CoverageLevel.full ∧
      (estimate { iCA with coverageLevel := .full }).estimatedNewPremium <
        (estimate iCA).estimatedNewPremium := by
  norm_num +decide [estimate, estimatedNewPremium, jround, savingsMultiplier,
    baselineMultiplier, riskAdjustment, stateFactorLookup, STATE_FACTOR_find,
    STATE_FACTOR_DEFAULT, AGE_FACTOR, VEHICLE_FACTOR, COVERAGE_FACTOR,
    HISTORY_FACTOR, iCA, Int.floor_eq_iff]

/-- C3 amended: holding the other five fields fixed (with a non-negative
premium), increasing the coverage factor — moving minimum → standard → full —
never INCREASES `estimatedNewPremium`. -/
theorem coverage_antitone (i : SavingsInput) (c c' : CoverageLevel)
    (hc : COVERAGE_FACTOR c ≤ COVERAGE_FACTOR c') (hP : 0 ≤ i.currentPremium) :
    (estimate { i with coverageLevel := c' }).estimatedNewPremium ≤
      (estimate { i with coverageLevel := c }).estimatedNewPremium := by
  have hrisk : 0 < riskAdjustment { i with coverageLevel := c } :=
    riskAdjustment_pos _
  have hriskEq : riskAdjustment { i with coverageLevel := c' } =
      riskAdjustment { i with coverageLevel := c } := rfl
  have hb1 : 0 < baselineMultiplier { i with coverageLevel := c } :=
    baselineMultiplier_pos _
  have hb : baselineMultiplier { i with coverageLevel := c } ≤
      baselineMultiplier { i with coverageLevel := c' } := by
    unfold baselineMultiplier
    rw [hriskEq]
    exact mul_le_mul_of_nonneg_left hc hrisk.le
  have hmult : savingsMultiplier { i with coverageLevel := c' } ≤
      savingsMultiplier { i with coverageLevel := c } := by
    unfold savingsMultiplier
    refine max_le_max (le_refl _) (min_le_min (le_refl _) ?_)
    refine mul_le_mul_of_nonneg_right ?_ (by norm_num)
    rw [show (1.0 : ℚ) = 1 by norm_num]
    exact one_div_le_one_div_of_le hb1 hb
  have hprod : i.currentPremium * savingsMultiplier { i with coverageLevel := c' } ≤
      i.currentPremium * savingsMultiplier { i with coverageLevel := c } :=
    mul_le_mul_of_nonneg_left hmult hP
  exact Int.floor_mono (add_le_add_right hprod _)

/-- C3 amended witness: at the scenario 1 profile, coverage standard → full
yields a new premium that is no larger. -/
theorem coverage_antitone_witness :
    COVERAGE_FACTOR CoverageLevel.standard ≤ COVERAGE_FACTOR CoverageLevel.full ∧
      0 ≤ iCA.currentPremium ∧
      (estimate { iCA with coverageLevel := .full }).estimatedNewPremium ≤
        (estimate { iCA with coverageLevel := .standard }).estimatedNewPremium :=
  ⟨by norm_num [COVERAGE_FACTOR], by norm_num [iCA],
    coverage_antitone iCA .standard .full (by norm_num [COVERAGE_FACTOR])
      (by norm_num [iCA])⟩

/-- C4 counterexample: on the scenario 3 input (30-64, WY, sedan, minimum,
clean, 100) the code computes `riskAdjustment` = 0.85 (the clean-record
factor 0.85 is part of the product) and `baselineMultiplier` = 0.5525, not
the 1.00 and 0.65 the claim states. -/
theorem scenario3_cex :
    (estimate iWY).riskAdjustment ≠ 1.00 ∧ (estimate iWY).baselineMultiplier ≠ 0.65 := by
  norm_num +decide [estimate, baselineMultiplier, riskAdjustment,
    stateFactorLookup, STATE_FACTOR_find, STATE_FACTOR_DEFAULT, AGE_FACTOR,
    VEHICLE_FACTOR, COVERAGE_FACTOR, HISTORY_FACTOR, iWY]

/-- C4 amended: on the scenario 3 input the unlisted state resolves to the
default factor 1.00, `riskAdjustment` = 0.85, `baselineMultiplier` = 0.5525,
the raw ratio 0.92/0.5525 exceeds 1 so `savingsMultiplier` is capped at 1.00,
and the new premium is 100 with zero monthly and annual savings. -/
theorem scenario3_breakdown :
    STATE_FACTOR_find iWY.state = none ∧
    stateFactorLookup iWY.state = 1.00 ∧
    (estimate iWY).riskAdjustment = 0.85 ∧
    (estimate iWY).baselineMultiplier = 0.5525 ∧
    1 < 1.0 / (estimate iWY).baselineMultiplier * 0.92 ∧
    (estimate iWY).savingsMultiplier = 1.00 ∧
    (estimate iWY).estimatedNewPremium = 100 ∧
    (estimate iWY).monthlySavings = 0 ∧
    (estimate iWY).annualSavings = 0 := by
  norm_num +decide [estimate, estimatedNewPremium, jround, savingsMultiplier,
    baselineMultiplier, riskAdjustment, monthlySavings, annualSavings,
    stateFactorLookup, STATE_FACTOR_find, STATE_FACTOR_DEFAULT, AGE_FACTOR,
    VEHICLE_FACTOR, COVERAGE_FACTOR, HISTORY_FACTOR, iWY, Int.floor_eq_iff]

/-- C8 counterexample: on the clamped-to-0.70 profile with premium 52 the
new premium is round(36.4) = 36, which is strictly below 70% of the current
premium (36.4). -/
theorem premium_bound_cex :
    ((estimate iMI52).estimatedNewPremium : ℚ) < 0.70 * iMI52.currentPremium := by
  norm_num +decide [estimate, estimatedNewPremium, jround, savingsMultiplier,
    baselineMultiplier, riskAdjustment, stateFactorLookup, STATE_FACTOR_find,
    STATE_FACTOR_DEFAULT, AGE_FACTOR, VEHICLE_FACTOR, COVERAGE_FACTOR,
    HISTORY_FACTOR, iMI52, Int.floor_eq_iff]

/-- C8 amended: with an integer non-negative `currentPremium`, the estimated
new premium is at least 70% of the current premium less one half — i.e. the
70% bound holds up to the final rounding step. -/
theorem premium_lower_bound (i : SavingsInput) (n : ℕ) (h : i.currentPremium = n) :
    0.70 * i.currentPremium - 1/2 ≤ ((estimate i).estimatedNewPremium : ℚ) := by
  have hP : 0 ≤ i.currentPremium := by rw [h]; positivity
  have hmul : 0.70 * i.currentPremium ≤ i.currentPremium * savingsMultiplier i := by
    calc (0.70 : ℚ) * i.currentPremium = i.currentPremium * 0.70 := mul_comm _ _
      _ ≤ i.currentPremium * savingsMultiplier i :=
          mul_le_mul_of_nonneg_left (savingsMultiplier_ge i) hP
  have hfloor : i.currentPremium * savingsMultiplier i + 1/2 - 1 <
      ((estimatedNewPremium i : ℤ) : ℚ) :=
    Int.sub_one_lt_floor _
  have : (estimate i).estimatedNewPremium = estimatedNewPremium i := rfl
  rw [this]
  linarith

/-- C8 amended witness: at the clamped profile with premium 52,
round(36.4) = 36 is at least 36.4 − 0.5. -/
theorem premium_lower_bound_witness :
    iMI52.currentPremium = (52 : ℕ) ∧
      0.70 * iMI52.currentPremium - 1/2 ≤ ((estimate iMI52).estimatedNewPremium : ℚ) :=
  ⟨by norm_num [iMI52], premium_lower_bound iMI52 52 (by norm_num [iMI52])⟩
